import Mathlib

/-!
Shallow embedding of the AdbHelper core (src/core/adb_utils.py,
src/core/device_manager.py, and the worker guard of src/ui/main_window.py).

External effects (subprocess results, file contents, ARP scans) are passed in
explicitly as environment values; each Python function is translated to a pure
Lean function over those environments.  Python strings are modelled as Lean
`String` (a list of characters); the generic string helpers below mirror the
exact Python primitives used by the source (`strip`, `lower`, `split`,
`startswith`, `endswith`, `in`, single-character `replace`).  Word characters,
case mapping and whitespace are modelled at ASCII granularity, which covers
every string the source manipulates.
-/

namespace AdbHelper

/-- Result of one bridge (adb) invocation, as built by
`ADBUtils.run_adb_command`: `success` is `returncode == 0`, `output` the
trimmed stdout, `error` the trimmed stderr (or a fixed message). -/
structure CommandResult where
  success : Bool
  output : Option String
  error : Option String
deriving Repr, DecidableEq

/-- A parsed device record from the enumeration output. -/
structure Device where
  id : String
  status : String
deriving Repr, DecidableEq

/-- A usable device derived from the MAC mapping and the ARP scan. -/
structure UsableDevice where
  ip : String
  name : String
  mac : String
deriving Repr, DecidableEq

/-- Outcome of the `arp -a` neighbor-discovery scan: `ok` is
`returncode == 0`, `output` is its stdout. -/
structure ArpScan where
  ok : Bool
  output : String
deriving Repr, DecidableEq

/-! ### String primitives (Python semantics) -/

/-- Python list/string prefix test: `leadsWith needle hay` is true when
`needle` is an initial segment of `hay` (`str.startswith`). -/
def leadsWith : List Char → List Char → Bool
  | [], _ => true
  | _ :: _, [] => false
  | a :: as, b :: bs => a == b && leadsWith as bs

/-- Python substring containment on character lists: `listSub needle hay`
is `needle in hay`. -/
def listSub : List Char → List Char → Bool
  | needle, [] => leadsWith needle []
  | needle, c :: rest => leadsWith needle (c :: rest) || listSub needle rest

/-- Python `sub in s`. -/
def containsSub (s sub : String) : Bool := listSub sub.data s.data

/-- Python `str.endswith suffix`. -/
def trailsWith (suffix s : String) : Bool :=
  leadsWith suffix.data.reverse s.data.reverse

/-- The whitespace set of Python `str.strip()` (ASCII part). -/
def pySpace (c : Char) : Bool :=
  c == ' ' || c == '\t' || c == '\n' || c == '\r' ||
  c == Char.ofNat 11 || c == Char.ofNat 12

/-- Python `str.strip()`. -/
def pyStrip (s : String) : String :=
  ⟨((s.data.dropWhile pySpace).reverse.dropWhile pySpace).reverse⟩

/-- Python `str.lower()` (ASCII case mapping). -/
def lowerStr (s : String) : String := ⟨s.data.map Char.toLower⟩

/-- Python `str.split(sep)` for a one-character separator, on character
lists: consecutive separators produce empty groups, and the empty string
splits to one empty group. -/
def splitOnChar (sep : Char) : List Char → List (List Char)
  | [] => [[]]
  | c :: cs =>
    if c == sep then [] :: splitOnChar sep cs
    else
      match splitOnChar sep cs with
      | [] => [[c]]
      | g :: gs => (c :: g) :: gs

/-- Python `str.split(sep)` for a one-character separator. -/
def pySplit (sep : Char) (s : String) : List String :=
  (splitOnChar sep s.data).map (fun g => ⟨g⟩)

/-- Python `str.replace('-', ':')`; a single-character pattern and
replacement make `replace` a per-character map. -/
def dashToColon (s : String) : String :=
  ⟨s.data.map (fun c => if c == '-' then ':' else c)⟩

/-! ### Regular-expression fragments used by the source

`device_manager.py` extracts MAC addresses with the pattern
`([0-9A-Fa-f]\x7b2\x7d[:-])\x7b5\x7d([0-9A-Fa-f]\x7b2\x7d)` and IPv4
addresses with `\b(?:[0-9]\x7b1,3\x7d\.)\x7b3\x7d[0-9]\x7b1,3\x7d\b`,
both via `re.search` (leftmost match, greedy repetition, returning
`group(0)`).  The matchers below implement exactly those two patterns. -/

/-- Hexadecimal digit, as in the character class `[0-9A-Fa-f]`. -/
def isHexChar (c : Char) : Bool :=
  c.isDigit || ('a' ≤ c && c ≤ 'f') || ('A' ≤ c && c ≤ 'F')

/-- Match `n+1` groups of `hexpair sep` followed by a final hex pair,
anchored at the head of the list; returns the matched characters. -/
def matchMacAt : Nat → List Char → Option (List Char)
  | 0, a :: b :: _ => if isHexChar a && isHexChar b then some [a, b] else none
  | n + 1, a :: b :: s :: rest =>
    if isHexChar a && isHexChar b && (s == ':' || s == '-') then
      (matchMacAt n rest).map (fun t => a :: b :: s :: t)
    else none
  | _, _ => none

/-- Leftmost match of the MAC pattern (`re.search` semantics). -/
def searchMac : List Char → Option (List Char)
  | [] => none
  | c :: rest =>
    match matchMacAt 5 (c :: rest) with
    | some m => some m
    | none => searchMac rest

/-- Word character for `\b` (ASCII part of the `re` word class). -/
def isWordChar (c : Char) : Bool := c.isAlphanum || c == '_'

/-- Take exactly `n` decimal digits from the front, returning them and the
remainder. -/
def takeDigits : Nat → List Char → Option (List Char × List Char)
  | 0, cs => some ([], cs)
  | _ + 1, [] => none
  | n + 1, c :: cs =>
    if c.isDigit then (takeDigits n cs).map (fun p => (c :: p.1, p.2)) else none

/-- `\b` holds after the match: end of input or a non-word character. -/
def boundaryAfter : List Char → Bool
  | [] => true
  | c :: _ => !(isWordChar c)

/-- Final octet `[0-9]\x7b1,3\x7d\b` with a fixed digit count `n`. -/
def finalOctet (n : Nat) (cs : List Char) : Option (List Char) :=
  match takeDigits n cs with
  | some (d, rest) => if boundaryAfter rest then some d else none
  | none => none

/-- Final octet with greedy backtracking: three digits, else two, else one. -/
def lastGroup (cs : List Char) : Option (List Char) :=
  match finalOctet 3 cs with
  | some d => some d
  | none =>
    match finalOctet 2 cs with
    | some d => some d
    | none => finalOctet 1 cs

/-- One `[0-9]\x7b n \x7d\.` group with a fixed digit count. -/
def midOctet (n : Nat) (cs : List Char) : Option (List Char × List Char) :=
  match takeDigits n cs with
  | some (d, '.' :: rest) => some (d ++ ['.'], rest)
  | _ => none

/-- `k` greedy `[0-9]\x7b1,3\x7d\.` groups followed by the final octet,
anchored at the head of the list, with regex backtracking. -/
def matchDotGroups : Nat → List Char → Option (List Char)
  | 0, cs => lastGroup cs
  | k + 1, cs =>
    match (match midOctet 3 cs with
           | some (d, rest) => (matchDotGroups k rest).map (fun t => d ++ t)
           | none => none) with
    | some m => some m
    | none =>
      match (match midOctet 2 cs with
             | some (d, rest) => (matchDotGroups k rest).map (fun t => d ++ t)
             | none => none) with
      | some m => some m
      | none =>
        match midOctet 1 cs with
        | some (d, rest) => (matchDotGroups k rest).map (fun t => d ++ t)
        | none => none

/-- Leftmost IPv4 match: a start position satisfies the leading `\b`
exactly when the previous character is not a word character (the first
pattern character is a digit). -/
def searchIPv4Aux : Bool → List Char → Option (List Char)
  | _, [] => none
  | prevWord, c :: rest =>
    if prevWord then searchIPv4Aux (isWordChar c) rest
    else
      match matchDotGroups 3 (c :: rest) with
      | some m => some m
      | none => searchIPv4Aux (isWordChar c) rest

/-- `re.search` of the IPv4 pattern over a string, returning `group(0)`. -/
def extractIPv4 (s : String) : Option String :=
  (searchIPv4Aux false s.data).map (fun m => ⟨m⟩)

/-! ### ADBUtils.get_connected_devices -/

/-- Body of the parsing loop of `ADBUtils.get_connected_devices`: a line
yields a device when it is non-blank, does not start with `*`, splits on
tab into at least two parts, and its second part strips to `device`. -/
def parse_device_line (line : String) : Option Device :=
  if pyStrip line = "" then none
  else if leadsWith ['*'] line.data then none
  else
    match pySplit '\t' line with
    | p0 :: p1 :: _ =>
      if pyStrip p1 = "device" then some ⟨pyStrip p0, pyStrip p1⟩ else none
    | _ => none

/-- The accumulation loop of `ADBUtils.get_connected_devices`. -/
def devicesLoop : List String → List Device
  | [] => []
  | line :: rest =>
    match parse_device_line line with
    | some d => d :: devicesLoop rest
    | none => devicesLoop rest

/-- `ADBUtils.get_connected_devices`, as a function of the result of the
`devices` bridge command. -/
def get_connected_devices (r : CommandResult) : List Device :=
  if r.success = false then []
  else
    let raw := r.output.getD ""
    let output := pyStrip raw
    if output = "" then []
    else if containsSub output "List of devices attached" = false then []
    else devicesLoop ((pySplit '\n' raw).drop 1)

/-- Claim-side parser, written from the specification text: discard the
first line as a header; keep the remaining non-empty lines that do not
start with the comment marker; split each on tab; a line qualifies only
if it yields at least two fields (fields are read as whitespace-trimmed
tokens) and the second field is the literal status token `device`; emit
each qualifying line as a Device record of its first two fields. -/
def listDevicesSpec (out : String) : List Device :=
  ((pySplit '\n' out).drop 1).filterMap (fun line =>
    if pyStrip line ≠ "" ∧ ¬ leadsWith ['*'] line.data then
      match pySplit '\t' line with
      | f0 :: f1 :: _ =>
        if pyStrip f1 = "device" then some ⟨pyStrip f0, "device"⟩ else none
      | _ => none
    else none)

/-! ### ADBUtils.install_apk and its helpers -/

/-- `ADBUtils._is_valid_apk`, as a function of the artifact's path, size
and leading bytes (the source reads the first four bytes and compares the
first two with `b'PK'`, bytes 0x50 0x4B). -/
def is_valid_apk (apk_path : String) (size : Nat) (header : List Nat) : Bool :=
  if trailsWith ".apk" (lowerStr apk_path) = false then false
  else if size = 0 then false
  else if header.take 2 = [80, 75] then true
  else false

/-- The fast-fail error signatures of `ADBUtils.install_apk`. -/
def skip_errors : List String :=
  ["INSTALL_FAILED_ALREADY_EXISTS",
   "INSTALL_FAILED_INVALID_APK",
   "INSTALL_FAILED_INSUFFICIENT_STORAGE"]

/-- `any(skip_err in error_msg for skip_err in skip_errors)`. -/
def isFastFail (error_msg : String) : Bool :=
  skip_errors.any (fun e => containsSub error_msg e)

/-- The five install command lines, in the order the source lists them. -/
def install_methods (device_id apk_path : String) : List String :=
  ["-s " ++ device_id ++ " install -r -d \"" ++ apk_path ++ "\"",
   "-s " ++ device_id ++ " install -r -t -d \"" ++ apk_path ++ "\"",
   "-s " ++ device_id ++ " install -r \"" ++ apk_path ++ "\"",
   "-s " ++ device_id ++ " install -r -t \"" ++ apk_path ++ "\"",
   "-s " ++ device_id ++ " install \"" ++ apk_path ++ "\""]

/-- Environment of one `install_apk` call: the state of the artifact, the
outcome of every bridge command the call may issue, in call-site order.
`strategies` pairs with `install_methods` positionally. -/
structure InstallEnv where
  apkExists : Bool
  apkPath : String
  apkSize : Nat
  apkHeader : List Nat
  enumResult : CommandResult
  strategies : List CommandResult
  diagEnumResult : CommandResult
  modelResult : CommandResult
  androidResult : CommandResult
  brandResult : CommandResult
  versionResult : CommandResult
  storageResult : CommandResult
deriving Repr, DecidableEq

/-- `ADBUtils.get_device_info`: a dict with each key present exactly when
its property query succeeded. -/
def get_device_info (modelR androidR brandR : CommandResult) :
    List (String × String) :=
  (if modelR.success then [("model", modelR.output.getD "")] else []) ++
  (if androidR.success then [("android_version", androidR.output.getD "")] else []) ++
  (if brandR.success then [("brand", brandR.output.getD "")] else [])

/-- Python `dict.get(key, default)` (keys here are distinct). -/
def dictGetD (m : List (String × String)) (k dflt : String) : String :=
  match m.find? (fun p => p.1 == k) with
  | some p => p.2
  | none => dflt

/-- `ADBUtils.diagnose_install_issue`: the report lines, in order. -/
def diagnose_install_issue (env : InstallEnv) (device_id : String) :
    List String :=
  (if env.apkExists = false then ["❌ APK文件不存在"]
   else ["✅ APK文件存在", "📄 APK文件大小: " ++ toString env.apkSize ++ " 字节"]) ++
  (if (get_connected_devices env.diagEnumResult).any
        (fun d => d.id == device_id) = false then
     ["❌ 设备未连接"]
   else
     ["✅ 设备已连接"] ++
     (let info := get_device_info env.modelResult env.androidResult env.brandResult
      if info.isEmpty then []
      else ["📱 设备型号: " ++ dictGetD info "model" "未知",
            "🤖 Android版本: " ++ dictGetD info "android_version" "未知"])) ++
  (if env.versionResult.success then
     ["✅ ADB服务正常运行", "🔧 ADB版本: " ++ env.versionResult.output.getD ""]
   else
     ["❌ ADB服务异常", "🔧 ADB错误: " ++ env.versionResult.error.getD ""]) ++
  (if env.storageResult.success then ["✅ 可以访问设备存储信息"]
   else ["⚠️ 无法访问设备存储信息"])

/-- Bridge commands issued by the diagnosis pass, in order. -/
def diagnose_trace (env : InstallEnv) (device_id : String) : List String :=
  ["devices"] ++
  (if (get_connected_devices env.diagEnumResult).any
        (fun d => d.id == device_id) then
     ["-s " ++ device_id ++ " shell getprop ro.product.model",
      "-s " ++ device_id ++ " shell getprop ro.build.version.release",
      "-s " ++ device_id ++ " shell getprop ro.product.brand"]
   else []) ++
  ["version", "-s " ++ device_id ++ " shell df /data"]

/-- The strategy loop of `ADBUtils.install_apk`, over (command, outcome)
pairs: stop at the first success, returning it; stop at the first failure
whose error text carries a fast-fail signature, returning that failure
with the output dropped; otherwise continue.  The second component is the
list of commands actually issued, in order. -/
def runLadder : List (String × CommandResult) → Option CommandResult × List String
  | [] => (none, [])
  | (method, r) :: rest =>
    if r.success then (some r, [method])
    else if isFastFail (r.error.getD "") then
      (some { success := false, output := none, error := r.error }, [method])
    else
      let p := runLadder rest
      (p.1, method :: p.2)

/-- `ADBUtils.install_apk`.  The second component is the trace of bridge
commands issued, in order (`devices` for the precondition enumeration,
then each attempted strategy, then the diagnosis commands when the ladder
is exhausted). -/
def install_apk (env : InstallEnv) (device_id : String) :
    CommandResult × List String :=
  if env.apkExists = false then
    ({ success := false, output := none, error := "APK文件不存在" }, [])
  else if (get_connected_devices env.enumResult).any
      (fun d => d.id == device_id) = false then
    ({ success := false, output := none,
       error := "设备 " ++ device_id ++ " 未连接或不可用" }, ["devices"])
  else if is_valid_apk env.apkPath env.apkSize env.apkHeader = false then
    ({ success := false, output := none, error := "APK文件无效或已损坏" },
     ["devices"])
  else
    match runLadder ((install_methods device_id env.apkPath).zip env.strategies) with
    | (some r, tr) => (r, "devices" :: tr)
    | (none, tr) =>
      ({ success := false, output := none,
         error := "所有安装方法都失败了\n诊断信息:\n" ++
           String.intercalate "\n" (diagnose_install_issue env device_id) },
       "devices" :: tr ++ diagnose_trace env device_id)

/-! ### ADBUtils.connect_device -/

/-- The fixed diagnostic message of `ADBUtils.connect_device`. -/
def connectFailMsg : String := "连接失败，请检查设备是否已开启网络ADB调试"

/-- Environment of one `connect_device` call: the connect command's
outcome and the outcome of the re-verification `devices` command. -/
structure ConnectEnv where
  connectResult : CommandResult
  enumResult : CommandResult
deriving Repr, DecidableEq

/-- `ADBUtils.connect_device`.  The second component records whether the
ambiguous branch re-ran device enumeration. -/
def connect_device (env : ConnectEnv) (ip_address : String) :
    CommandResult × Bool :=
  let result := env.connectResult
  if result.success then
    let output := lowerStr (result.output.getD "")
    if containsSub output "connected to" ||
        containsSub output "already connected to" then
      (result, false)
    else if containsSub output "cannot connect to" ||
        containsSub output "failed to connect" then
      ({ success := false, output := result.output, error := connectFailMsg },
       false)
    else
      let devices := get_connected_devices env.enumResult
      if devices.any (fun d => containsSub d.id ip_address) then (result, true)
      else
        ({ success := false, output := result.output, error := connectFailMsg },
         true)
  else (result, false)

/-! ### DeviceManager -/

/-- Body of the line loop of `DeviceManager._load_mac_mapping`: a stripped
non-blank line not starting with `#` that splits on `=` into exactly two
parts yields the pair (lowercased stripped key, stripped value). -/
def parseMappingLine (raw : String) : Option (String × String) :=
  let line := pyStrip raw
  if line = "" then none
  else if leadsWith ['#'] line.data then none
  else
    match pySplit '=' line with
    | [k, v] => some (lowerStr (pyStrip k), pyStrip v)
    | _ => none

/-- `DeviceManager._load_mac_mapping`, as a function of the mapping file's
presence and content.  The Python dict is modelled as the list of
key/value pairs in insertion order; `dictLookup` below realizes the
last-write-wins dict lookup. -/
def load_mac_mapping (fileFound : Bool) (content : String) :
    List (String × String) :=
  if fileFound then (pySplit '\n' content).filterMap parseMappingLine else []

/-- Dict lookup with last-write-wins semantics over the insertion list. -/
def dictLookup (m : List (String × String)) (k : String) : Option String :=
  (m.reverse.find? (fun p => p.1 == k)).map (fun p => p.2)

/-- The line loop of `DeviceManager.get_device_mac`: on each ARP line
containing the queried address, search for a MAC; return the first hit
lowercased, else keep scanning. -/
def findMacLine (device_ip : String) : List String → Option String
  | [] => none
  | l :: ls =>
    if containsSub l device_ip then
      match searchMac l.data with
      | some m => some (lowerStr ⟨m⟩)
      | none => findMacLine device_ip ls
    else findMacLine device_ip ls

/-- `DeviceManager.get_device_mac`, as a function of the ARP scan. -/
def get_device_mac (arp : ArpScan) (device_ip : String) : Option String :=
  if arp.ok then findMacLine device_ip (pySplit '\n' (pyStrip arp.output))
  else none

/-- `DeviceManager.get_device_name`: strip the port suffix, resolve the
MAC, look it up in the mapping; on any miss return the device id.  (A MAC
returned by `get_device_mac` is a nonempty string, so Python's truthiness
test on it coincides with the `Option` match.) -/
def get_device_name (mac_to_name : List (String × String)) (arp : ArpScan)
    (device_id : String) : String :=
  let ip_part := (pySplit ':' device_id).headD ""
  match get_device_mac arp ip_part with
  | some mac =>
    match dictLookup mac_to_name mac with
    | some name => name
    | none => device_id
  | none => device_id

/-- Inner loop of `DeviceManager.get_usable_devices` for one mapping
entry: find the first ARP line containing the normalized MAC; if one is
found, the entry is consumed by it — an IPv4 extracted from that same
line yields the UsableDevice, and no further lines are examined either
way. -/
def usableOfEntry (arp_lines : List String) (mac name : String) :
    Option UsableDevice :=
  match arp_lines.find? (fun l =>
      containsSub (dashToColon (lowerStr l)) (dashToColon (lowerStr mac))) with
  | some line =>
    match extractIPv4 line with
    | some ip => some ⟨ip, name, mac⟩
    | none => none
  | none => none

/-- `DeviceManager.get_usable_devices`.  The second component records
whether the neighbor-discovery scan executed; `subprocess.run(arp -a)` is
the first statement of the source function, so it runs on every call,
before the empty-mapping check. -/
def get_usable_devices (mac_to_name : List (String × String)) (arp : ArpScan) :
    List UsableDevice × Bool :=
  if arp.ok = false then ([], true)
  else
    let arp_lines := pySplit '\n' (pyStrip arp.output)
    if mac_to_name.isEmpty then ([], true)
    else
      (mac_to_name.filterMap (fun p => usableOfEntry arp_lines p.1 p.2), true)

/-! ### MainWindow worker guard -/

/-- The single-flight slot of `MainWindow`: the `current_worker`
attribute, holding the identity of the running worker when occupied. -/
structure GuardState where
  currentWorker : Option Nat
deriving Repr, DecidableEq

/-- `MainWindow.start_worker`: reject (returning `false`, state
untouched) when the slot is occupied; otherwise claim the slot and start
the worker (`startOk = false` models the exception path of the source,
which clears the slot and returns `false`). -/
def start_worker (s : GuardState) (w : Nat) (startOk : Bool) :
    GuardState × Bool :=
  match s.currentWorker with
  | some _ => (s, false)
  | none =>
    if startOk then ({ currentWorker := some w }, true)
    else ({ currentWorker := none }, false)

/-- `MainWindow.refresh_devices`: the same check-then-claim pattern,
inlined at its own call site.  The Bool reports whether a worker was
started. -/
def refresh_devices (s : GuardState) (w : Nat) (startOk : Bool) :
    GuardState × Bool :=
  match s.currentWorker with
  | some _ => (s, false)
  | none =>
    if startOk then ({ currentWorker := some w }, true)
    else ({ currentWorker := none }, false)

/-! ### Statement-side predicates and concrete environments -/

/-- The diagnosis report covers every diagnostic check: it carries a line
for the artifact check, one for the device-connectivity check, one for
the bridge-version check and one for the storage check. -/
def diagHasAllChecks (L : List String) : Prop :=
  ("❌ APK文件不存在" ∈ L ∨ "✅ APK文件存在" ∈ L) ∧
  ("❌ 设备未连接" ∈ L ∨ "✅ 设备已连接" ∈ L) ∧
  ("✅ ADB服务正常运行" ∈ L ∨ "❌ ADB服务异常" ∈ L) ∧
  ("✅ 可以访问设备存储信息" ∈ L ∨ "⚠️ 无法访问设备存储信息" ∈ L)

/-- A generic failed bridge invocation. -/
def crFail : CommandResult := ⟨false, none, none⟩

/-- An enumeration result listing exactly the usable device `d`. -/
def enumD : CommandResult :=
  ⟨true, some "List of devices attached\nd\tdevice", none⟩

/-- Concrete install environment: valid artifact, device `d` attached,
strategy 1 fails with an ordinary error, strategy 2 succeeds. -/
def envLadderSuccess : InstallEnv :=
  { apkExists := true, apkPath := "a.apk", apkSize := 3,
    apkHeader := [80, 75, 3, 4], enumResult := enumD,
    strategies := [⟨false, none, some "failure: xx"⟩,
                   ⟨true, some "Success", none⟩, crFail, crFail, crFail],
    diagEnumResult := crFail, modelResult := crFail, androidResult := crFail,
    brandResult := crFail, versionResult := crFail, storageResult := crFail }

/-- Concrete install environment: strategy 1 fails with a fast-fail
signature while later strategies would succeed. -/
def envLadderFastFail : InstallEnv :=
  { apkExists := true, apkPath := "a.apk", apkSize := 3,
    apkHeader := [80, 75, 3, 4], enumResult := enumD,
    strategies := [⟨false, none, some "err INSTALL_FAILED_INVALID_APK!"⟩,
                   ⟨true, some "Success", none⟩, crFail, crFail, crFail],
    diagEnumResult := crFail, modelResult := crFail, androidResult := crFail,
    brandResult := crFail, versionResult := crFail, storageResult := crFail }

/-- Concrete install environment: artifact exists and device `d` is
attached, but the artifact has the wrong suffix and no `PK` header. -/
def envBadArtifact : InstallEnv :=
  { apkExists := true, apkPath := "a.txt", apkSize := 3, apkHeader := [1, 2],
    enumResult := enumD, strategies := [],
    diagEnumResult := crFail, modelResult := crFail, androidResult := crFail,
    brandResult := crFail, versionResult := crFail, storageResult := crFail }

/-- Concrete install environment: every strategy fails with an ordinary
error and every diagnostic probe fails too. -/
def envExhausted : InstallEnv :=
  { apkExists := true, apkPath := "a.apk", apkSize := 3,
    apkHeader := [80, 75, 3, 4], enumResult := enumD,
    strategies := [⟨false, none, some "e1"⟩, ⟨false, none, some "e2"⟩,
                   ⟨false, none, some "e3"⟩, ⟨false, none, some "e4"⟩,
                   ⟨false, none, some "e5"⟩],
    diagEnumResult := crFail, modelResult := crFail, androidResult := crFail,
    brandResult := crFail, versionResult := crFail, storageResult := crFail }

/-- Concrete connect environment: the connect command succeeds with text
matching no known phrase, and the re-enumeration lists a device whose id
contains the requested address. -/
def envConnectAmbiguous : ConnectEnv :=
  ⟨⟨true, some "weird", none⟩,
   ⟨true, some "List of devices attached\n192.168.1.5:5555\tdevice", none⟩⟩

/-! ### Theorems -/

/-- C9: while a single-flight operation occupies the slot, any second
request of the single-flight class is rejected immediately with a busy
signal (`false`), starts no worker, and leaves the slot unchanged; the
request is not queued — the returned state is exactly the old state,
both for `start_worker` (connect, disconnect, and the other guarded
operations) and for the inlined guard of `refresh_devices`. -/
theorem C9_single_flight_busy (s : GuardState) (w1 w : Nat) (ok : Bool)
    (h : s.currentWorker = some w1) :
    start_worker s w ok = (s, false) ∧ refresh_devices s w ok = (s, false) := by
  unfold start_worker refresh_devices
  rw [h]
  exact ⟨rfl, rfl⟩

/-- C9 witness: a concrete occupied slot rejects a second request. -/
theorem C9_single_flight_busy_witness :
    start_worker ⟨some 0⟩ 1 true = (⟨some 0⟩, false) ∧
    refresh_devices ⟨some 0⟩ 1 true = (⟨some 0⟩, false) :=
  C9_single_flight_busy ⟨some 0⟩ 0 1 true rfl

/-- C6: `get_device_name` (resolveName) is total and degrades to the
input id: whenever the MAC lookup chain fails at any step (mapping
missing a key, scan failure, no line containing the address, no MAC in a
matching line — all of which surface as `get_device_mac` returning `none`
or the mapping lookup returning `none`), the original device id is
returned unchanged; and in every case the result is either the device id
itself or a name stored in the mapping. -/
theorem C6_resolveName_degrades (m : List (String × String)) (arp : ArpScan)
    (device_id : String) :
    (get_device_mac arp ((pySplit ':' device_id).headD "") = none →
      get_device_name m arp device_id = device_id) ∧
    (∀ mac, get_device_mac arp ((pySplit ':' device_id).headD "") = some mac →
      dictLookup m mac = none → get_device_name m arp device_id = device_id) ∧
    (get_device_name m arp device_id = device_id ∨
      ∃ mac name,
        get_device_mac arp ((pySplit ':' device_id).headD "") = some mac ∧
        dictLookup m mac = some name ∧
        get_device_name m arp device_id = name) := by
  have key : get_device_name m arp device_id =
      (match get_device_mac arp ((pySplit ':' device_id).headD "") with
       | some mac =>
         match dictLookup m mac with
         | some name => name
         | none => device_id
       | none => device_id) := rfl
  refine ⟨fun h => by rw [key, h], fun mac h1 h2 => ?_, ?_⟩
  · rw [key, h1]
    show (match dictLookup m mac with
          | some name => name
          | none => device_id) = device_id
    rw [h2]
  cases h1 : get_device_mac arp ((pySplit ':' device_id).headD "") with
  | none => left; rw [key, h1]
  | some mac =>
    cases h2 : dictLookup m mac with
    | none =>
      left
      rw [key, h1]
      show (match dictLookup m mac with
            | some name => name
            | none => device_id) = device_id
      rw [h2]
    | some name =>
      right
      refine ⟨mac, name, rfl, h2, ?_⟩
      rw [key, h1]
      show (match dictLookup m mac with
            | some n => n
            | none => device_id) = name
      rw [h2]

/-- C6 witness: with a failed scan and an empty mapping the device id is
returned unchanged. -/
theorem C6_resolveName_degrades_witness :
    get_device_name [] ⟨false, ""⟩ "192.168.1.5:5555" = "192.168.1.5:5555" :=
  (C6_resolveName_degrades [] ⟨false, ""⟩ "192.168.1.5:5555").1 rfl

/-- C4 counterexample: with an empty mapping the scan is still performed —
`subprocess.run(arp -a)` is the first statement of
`get_usable_devices`, before the empty-mapping check — so the claim
"performs no neighbor-discovery scan" is false at this input. -/
theorem C4_no_scan_counterexample :
    ¬ ((get_usable_devices [] ⟨true, "x"⟩).1 = [] ∧
       (get_usable_devices [] ⟨true, "x"⟩).2 = false) := by
  decide

/-- C4 (amended): for every state in which the mapping is empty,
`get_usable_devices` returns an empty sequence (though the
neighbor-discovery scan is still performed first), and it also returns an
empty sequence whenever the scan command fails. -/
theorem C4_empty_mapping_or_failed_scan (m : List (String × String))
    (arp : ArpScan) :
    (m = [] → (get_usable_devices m arp).1 = []) ∧
    (arp.ok = false → (get_usable_devices m arp).1 = []) := by
  obtain ⟨ok, out⟩ := arp
  constructor
  · intro h
    subst h
    cases ok <;> simp [get_usable_devices]
  · intro h
    simp only at h
    subst h
    simp [get_usable_devices]

/-- C4 witness: empty mapping and failed scan each yield the empty
sequence at concrete inputs. -/
theorem C4_empty_mapping_or_failed_scan_witness :
    (get_usable_devices [] ⟨true, "x"⟩).1 = [] ∧
    (get_usable_devices [("aa:bb:cc:dd:ee:ff", "Room")] ⟨false, "y"⟩).1 = [] :=
  ⟨(C4_empty_mapping_or_failed_scan [] ⟨true, "x"⟩).1 rfl,
   (C4_empty_mapping_or_failed_scan [("aa:bb:cc:dd:ee:ff", "Room")]
     ⟨false, "y"⟩).2 rfl⟩

/-- C2: when the connect command succeeds but its lowercased output
contains neither a success phrase nor a failure phrase, `connect_device`
re-runs device enumeration (second component `true`) and returns success
(the original successful result) exactly when some enumerated device id
contains the requested address as a substring; otherwise it returns
failure carrying the fixed diagnostic message, independent of the raw
tool text. -/
theorem C2_connect_ambiguity (env : ConnectEnv) (ip_address : String)
    (hs : env.connectResult.success = true)
    (h1 : containsSub (lowerStr (env.connectResult.output.getD ""))
      "connected to" = false)
    (h2 : containsSub (lowerStr (env.connectResult.output.getD ""))
      "already connected to" = false)
    (h3 : containsSub (lowerStr (env.connectResult.output.getD ""))
      "cannot connect to" = false)
    (h4 : containsSub (lowerStr (env.connectResult.output.getD ""))
      "failed to connect" = false) :
    (connect_device env ip_address).2 = true ∧
    ((∃ d ∈ get_connected_devices env.enumResult,
        containsSub d.id ip_address = true) →
      connect_device env ip_address = (env.connectResult, true)) ∧
    ((∀ d ∈ get_connected_devices env.enumResult,
        containsSub d.id ip_address = false) →
      connect_device env ip_address =
        ({ success := false, output := env.connectResult.output,
           error := connectFailMsg }, true)) := by
  have hany := List.any_eq_true (l := get_connected_devices env.enumResult)
    (p := fun d => containsSub d.id ip_address)
  cases ha : (get_connected_devices env.enumResult).any
      (fun d => containsSub d.id ip_address) with
  | true =>
    refine ⟨?_, ?_, ?_⟩
    · simp [connect_device, hs, h1, h2, h3, h4, ha]
    · intro _
      simp [connect_device, hs, h1, h2, h3, h4, ha]
    · intro hall
      obtain ⟨d, hd, hdi⟩ := hany.mp ha
      rw [hall d hd] at hdi
      exact absurd hdi (by simp)
  | false =>
    refine ⟨?_, ?_, ?_⟩
    · simp [connect_device, hs, h1, h2, h3, h4, ha]
    · intro hex
      rw [← hany] at hex
      rw [ha] at hex
      exact absurd hex (by simp)
    · intro _
      simp [connect_device, hs, h1, h2, h3, h4, ha]

/-- C2 witness: ambiguous output with a matching enumerated device yields
the original success result with re-verification performed. -/
theorem C2_connect_ambiguity_witness :
    connect_device envConnectAmbiguous "192.168.1.5" =
      (⟨true, some "weird", none⟩, true) :=
  (C2_connect_ambiguity envConnectAmbiguous "192.168.1.5" (by decide)
    (by decide) (by decide) (by decide) (by decide)).2.1 (by decide)

/-- C8: mapping load is a pure function of the file state, so loading the
same content twice yields equal mappings; and when the same normalized
key occurs on several well-formed lines, the dict lookup resolves to the
value of the last occurrence. -/
theorem C8_mapping_load_last_wins :
    (∀ (fileFound : Bool) (content : String),
      load_mac_mapping fileFound content = load_mac_mapping fileFound content) ∧
    (∀ (fileFound : Bool) (content k v : String)
      (l1 l2 : List (String × String)),
      load_mac_mapping fileFound content = l1 ++ (k, v) :: l2 →
      (∀ p ∈ l2, p.1 ≠ k) →
      dictLookup (load_mac_mapping fileFound content) k = some v) := by
  refine ⟨fun _ _ => rfl, fun ff c k v l1 l2 hload hlast => ?_⟩
  rw [hload]
  unfold dictLookup
  have h2 : l2.reverse.find? (fun p => p.1 == k) = none := by
    rw [List.find?_eq_none]
    intro p hp
    simpa using hlast p (List.mem_reverse.mp hp)
  rw [List.reverse_append, List.reverse_cons, List.find?_append,
    List.find?_append, h2]
  simp

/-- C8 witness: a file whose two lines bind the same key resolves to the
second value. -/
theorem C8_mapping_load_last_wins_witness :
    dictLookup (load_mac_mapping true "a=1\nA = 2") "a" = some "2" :=
  C8_mapping_load_last_wins.2 true "a=1\nA = 2" "a" "2" [("a", "1")] []
    (by decide) (by decide)

/-- Helper: the loop body of the source parser agrees pointwise with the
qualification stated by the specification. -/
theorem parse_device_line_eq (line : String) :
    parse_device_line line =
      (if pyStrip line ≠ "" ∧ ¬ leadsWith ['*'] line.data then
        match pySplit '\t' line with
        | f0 :: f1 :: _ =>
          if pyStrip f1 = "device" then some ⟨pyStrip f0, "device"⟩ else none
        | _ => none
      else none) := by
  unfold parse_device_line
  by_cases h1 : pyStrip line = ""
  · simp [h1]
  by_cases h2 : leadsWith ['*'] line.data = true
  · simp [h1, h2]
  rw [if_neg h1, if_neg h2,
    if_pos (⟨h1, h2⟩ : pyStrip line ≠ "" ∧ ¬ leadsWith ['*'] line.data = true)]
  cases h3 : pySplit '\t' line with
  | nil => rfl
  | cons f0 tl =>
    cases tl with
    | nil => rfl
    | cons f1 tl2 =>
      by_cases h4 : pyStrip f1 = "device"
      · simp [h4]
      · simp [h4]

/-- Helper: the accumulation loop is the filterMap of its body. -/
theorem devicesLoop_eq_filterMap (ls : List String) :
    devicesLoop ls = ls.filterMap parse_device_line := by
  induction ls with
  | nil => rfl
  | cons line rest ih =>
    cases h : parse_device_line line with
    | none => simp [devicesLoop, List.filterMap_cons, h, ih]
    | some d => simp [devicesLoop, List.filterMap_cons, h, ih]

/-- Helper: the specification parser is the filterMap of the loop body. -/
theorem listDevicesSpec_eq_filterMap (out : String) :
    listDevicesSpec out =
      ((pySplit '\n' out).drop 1).filterMap parse_device_line := by
  have hfun : (fun line : String =>
      if pyStrip line ≠ "" ∧ ¬ leadsWith ['*'] line.data then
        match pySplit '\t' line with
        | f0 :: f1 :: _ =>
          if pyStrip f1 = "device" then
            some (⟨pyStrip f0, "device"⟩ : Device)
          else none
        | _ => none
      else none) = parse_device_line :=
    funext fun line => (parse_device_line_eq line).symm
  unfold listDevicesSpec
  rw [hfun]

/-- C5: for every successful enumeration result whose (trimmed) output
carries the header marker, the parser discards the first line and returns
exactly those remaining non-empty, non-comment lines that split on tab
into at least two fields whose second field is the literal status token
`device`, as Device records; lines with other statuses are dropped
without error; and the output
`"List of devices attached\n127.0.0.1:5555\tdevice\n"` yields exactly one
Device with id `127.0.0.1:5555` and status `device`. -/
theorem C5_enumeration_parsing :
    (∀ r : CommandResult, r.success = true →
      containsSub (pyStrip (r.output.getD "")) "List of devices attached" = true →
      get_connected_devices r = listDevicesSpec (r.output.getD "")) ∧
    get_connected_devices
      ⟨true, some "List of devices attached\n127.0.0.1:5555\tdevice\n", none⟩ =
      [⟨"127.0.0.1:5555", "device"⟩] := by
  constructor
  · intro r hs hh
    have hne : pyStrip (r.output.getD "") ≠ "" := by
      intro h0
      rw [h0] at hh
      exact absurd hh (by decide)
    unfold get_connected_devices
    rw [hs]
    simp only [Bool.true_eq_false, if_false]
    rw [if_neg hne, hh]
    simp only [Bool.true_eq_false, if_false]
    rw [devicesLoop_eq_filterMap, listDevicesSpec_eq_filterMap]
  · decide

/-- C5 witness: a mixed-status enumeration output parses identically under
the source parser and the specification parser. -/
theorem C5_enumeration_parsing_witness :
    get_connected_devices
      ⟨true, some "List of devices attached\na\toffline\nb\tdevice", none⟩ =
      listDevicesSpec "List of devices attached\na\toffline\nb\tdevice" :=
  C5_enumeration_parsing.1
    ⟨true, some "List of devices attached\na\toffline\nb\tdevice", none⟩
    rfl (by decide)

/-- Helper: one ladder step over an ordinary failure recurses, recording
the issued command. -/
theorem runLadder_cons_skip (m : String) (x : CommandResult)
    (rest : List (String × CommandResult))
    (h1 : x.success = false) (h2 : isFastFail (x.error.getD "") = false) :
    runLadder ((m, x) :: rest) =
      ((runLadder rest).1, m :: (runLadder rest).2) := by
  simp [runLadder, h1, h2]

/-- Helper: after a prefix of ordinary failures, the ladder stops at the
first success, having issued exactly the commands up to and including it. -/
theorem runLadder_firstSuccess (ms : List String)
    (pre post : List CommandResult) (r : CommandResult)
    (hlen : ms.length = (pre ++ r :: post).length)
    (hpre : ∀ x ∈ pre, x.success = false ∧ isFastFail (x.error.getD "") = false)
    (hr : r.success = true) :
    runLadder (ms.zip (pre ++ r :: post)) = (some r, ms.take (pre.length + 1)) := by
  induction pre generalizing ms with
  | nil =>
    cases ms with
    | nil => simp at hlen
    | cons m ms2 => simp [runLadder, hr]
  | cons x pre2 ih =>
    cases ms with
    | nil => simp at hlen
    | cons m ms2 =>
      have hx := hpre x (List.mem_cons_self x pre2)
      have hrest : ∀ y ∈ pre2,
          y.success = false ∧ isFastFail (y.error.getD "") = false :=
        fun y hy => hpre y (List.mem_cons_of_mem x hy)
      have hlen2 : ms2.length = (pre2 ++ r :: post).length := by
        simpa using hlen
      show runLadder ((m, x) :: ms2.zip (pre2 ++ r :: post)) = _
      rw [runLadder_cons_skip m x _ hx.1 hx.2, ih ms2 hlen2 hrest]
      simp

/-- Helper: after a prefix of ordinary failures, a failure carrying a
fast-fail signature abandons the ladder, having issued exactly the
commands up to and including it. -/
theorem runLadder_fastFail (ms : List String)
    (pre post : List CommandResult) (r : CommandResult)
    (hlen : ms.length = (pre ++ r :: post).length)
    (hpre : ∀ x ∈ pre, x.success = false ∧ isFastFail (x.error.getD "") = false)
    (hr : r.success = false) (hff : isFastFail (r.error.getD "") = true) :
    runLadder (ms.zip (pre ++ r :: post)) =
      (some { success := false, output := none, error := r.error },
       ms.take (pre.length + 1)) := by
  induction pre generalizing ms with
  | nil =>
    cases ms with
    | nil => simp at hlen
    | cons m ms2 => simp [runLadder, hr, hff]
  | cons x pre2 ih =>
    cases ms with
    | nil => simp at hlen
    | cons m ms2 =>
      have hx := hpre x (List.mem_cons_self x pre2)
      have hrest : ∀ y ∈ pre2,
          y.success = false ∧ isFastFail (y.error.getD "") = false :=
        fun y hy => hpre y (List.mem_cons_of_mem x hy)
      have hlen2 : ms2.length = (pre2 ++ r :: post).length := by
        simpa using hlen
      show runLadder ((m, x) :: ms2.zip (pre2 ++ r :: post)) = _
      rw [runLadder_cons_skip m x _ hx.1 hx.2, ih ms2 hlen2 hrest]
      simp

/-- Helper: when every outcome is an ordinary failure, the whole ladder
is traversed and exhausted. -/
theorem runLadder_allFail (ps : List (String × CommandResult))
    (h : ∀ q ∈ ps, q.2.success = false ∧ isFastFail (q.2.error.getD "") = false) :
    runLadder ps = (none, ps.map Prod.fst) := by
  induction ps with
  | nil => rfl
  | cons q ps2 ih =>
    have hq := h q (List.mem_cons_self q ps2)
    have hrest := fun x hx => h x (List.mem_cons_of_mem q hx)
    simp [runLadder, hq.1, hq.2, ih hrest]

/-- Helper: with all preconditions satisfied, `install_apk` is the ladder
over the five strategy commands. -/
theorem install_apk_ladder (env : InstallEnv) (device_id : String)
    (hexists : env.apkExists = true)
    (hdev : (get_connected_devices env.enumResult).any
      (fun d => d.id == device_id) = true)
    (hvalid : is_valid_apk env.apkPath env.apkSize env.apkHeader = true) :
    install_apk env device_id =
      (match runLadder
          ((install_methods device_id env.apkPath).zip env.strategies) with
       | (some r0, tr) => (r0, "devices" :: tr)
       | (none, tr) =>
         ({ success := false, output := none,
            error := "所有安装方法都失败了\n诊断信息:\n" ++
              String.intercalate "\n" (diagnose_install_issue env device_id) },
          "devices" :: tr ++ diagnose_trace env device_id)) := by
  unfold install_apk
  rw [hexists, hdev, hvalid]
  simp

/-- C1: with the preconditions satisfied, `install_apk` tries the five
strategies strictly in the listed order — given a split of the outcome
sequence into a prefix of ordinary failures followed by the decisive
outcome at position `pre.length`, the commands issued after the
precondition enumeration are exactly the first `pre.length + 1` strategy
commands; the first success is returned as-is and no later strategy is
attempted; and a failure carrying a fast-fail signature ends the ladder
with that failure returned and no later strategy attempted. -/
theorem C1_install_strategy_ladder (env : InstallEnv) (device_id : String)
    (pre post : List CommandResult) (r : CommandResult)
    (hstrat : env.strategies = pre ++ r :: post)
    (hlen : (pre ++ r :: post).length = 5)
    (hexists : env.apkExists = true)
    (hdev : (get_connected_devices env.enumResult).any
      (fun d => d.id == device_id) = true)
    (hvalid : is_valid_apk env.apkPath env.apkSize env.apkHeader = true)
    (hpre : ∀ x ∈ pre, x.success = false ∧ isFastFail (x.error.getD "") = false) :
    (r.success = true →
      install_apk env device_id =
        (r, "devices" ::
          (install_methods device_id env.apkPath).take (pre.length + 1))) ∧
    (r.success = false → isFastFail (r.error.getD "") = true →
      install_apk env device_id =
        ({ success := false, output := none, error := r.error },
         "devices" ::
          (install_methods device_id env.apkPath).take (pre.length + 1))) := by
  have hmslen : (install_methods device_id env.apkPath).length =
      (pre ++ r :: post).length := by
    rw [hlen]
    rfl
  have key := install_apk_ladder env device_id hexists hdev hvalid
  constructor
  · intro hr
    rw [key, hstrat, runLadder_firstSuccess _ pre post r hmslen hpre hr]
  · intro hr hff
    rw [key, hstrat, runLadder_fastFail _ pre post r hmslen hpre hr hff]

/-- C1 witness: with strategy 1 failing ordinarily, a success at
strategy 2 is returned having issued exactly strategies 1–2; with a
fast-fail signature at strategy 1, that failure is returned having
issued exactly strategy 1. -/
theorem C1_install_strategy_ladder_witness :
    install_apk envLadderSuccess "d" =
      (⟨true, some "Success", none⟩,
       ["devices", "-s d install -r -d \"a.apk\"",
        "-s d install -r -t -d \"a.apk\""]) ∧
    install_apk envLadderFastFail "d" =
      (⟨false, none, some "err INSTALL_FAILED_INVALID_APK!"⟩,
       ["devices", "-s d install -r -d \"a.apk\""]) :=
  ⟨(C1_install_strategy_ladder envLadderSuccess "d"
      [⟨false, none, some "failure: xx"⟩] [crFail, crFail, crFail]
      ⟨true, some "Success", none⟩ rfl rfl rfl (by decide) (by decide)
      (by decide)).1 rfl,
   (C1_install_strategy_ladder envLadderFastFail "d"
      [] [⟨true, some "Success", none⟩, crFail, crFail, crFail]
      ⟨false, none, some "err INSTALL_FAILED_INVALID_APK!"⟩ rfl rfl rfl
      (by decide) (by decide) (by decide)).2 rfl (by decide)⟩

/-- C3 counterexample: an artifact-validation rejection (wrong suffix,
non-PK header) is reported only after the device-enumeration bridge
command has already run — the claim's "before any bridge call is
attempted" is false at this input, where the invocation trace at the
validation failure is nonempty. -/
theorem C3_validation_after_enum_counterexample :
    (install_apk envBadArtifact "d").1 =
      ⟨false, none, some "APK文件无效或已损坏"⟩ ∧
    ¬ (install_apk envBadArtifact "d").2 = [] := by
  decide

/-- C3 (amended): `install_apk` checks its preconditions in order —
artifact existence, device presence in the usable enumeration, artifact
structural validity — each a hard stop with a distinct error; a missing
artifact fails with zero bridge invocations; and every validation
rejection (zero size, wrong suffix, non-PK header) fails before any
installation strategy command is attempted, the only prior bridge call
being the device enumeration. -/
theorem C3_precondition_order (env : InstallEnv) (device_id : String) :
    (env.apkExists = false →
      install_apk env device_id =
        ({ success := false, output := none, error := "APK文件不存在" }, [])) ∧
    (env.apkExists = true →
      (get_connected_devices env.enumResult).any
        (fun d => d.id == device_id) = false →
      install_apk env device_id =
        ({ success := false, output := none,
           error := "设备 " ++ device_id ++ " 未连接或不可用" }, ["devices"])) ∧
    (env.apkExists = true →
      (get_connected_devices env.enumResult).any
        (fun d => d.id == device_id) = true →
      is_valid_apk env.apkPath env.apkSize env.apkHeader = false →
      install_apk env device_id =
        ({ success := false, output := none, error := "APK文件无效或已损坏" },
         ["devices"])) ∧
    (∀ (p : String) (hd : List Nat), is_valid_apk p 0 hd = false) ∧
    (∀ (p : String) (n : Nat) (hd : List Nat),
      trailsWith ".apk" (lowerStr p) = false → is_valid_apk p n hd = false) ∧
    (∀ (p : String) (n : Nat) (hd : List Nat),
      hd.take 2 ≠ [80, 75] → is_valid_apk p n hd = false) := by
  refine ⟨fun h1 => ?_, fun h1 h2 => ?_, fun h1 h2 h3 => ?_, ?_, ?_, ?_⟩
  · unfold install_apk
    rw [h1]
    simp
  · unfold install_apk
    rw [h1, h2]
    simp
  · unfold install_apk
    rw [h1, h2, h3]
    simp
  · intro p hd
    cases htw : trailsWith ".apk" (lowerStr p) <;> simp [is_valid_apk, htw]
  · intro p n hd hsuf
    simp [is_valid_apk, hsuf]
  · intro p n hd hh
    unfold is_valid_apk
    cases htw : trailsWith ".apk" (lowerStr p)
    · simp
    · by_cases hn : n = 0
      · simp [hn]
      · simp [hn, hh]

/-- C3 witness: a missing artifact fails with an empty invocation trace;
an invalid artifact fails after exactly the enumeration call. -/
theorem C3_precondition_order_witness :
    install_apk
      { apkExists := false, apkPath := "a.apk", apkSize := 1,
        apkHeader := [80, 75], enumResult := crFail, strategies := [],
        diagEnumResult := crFail, modelResult := crFail,
        androidResult := crFail, brandResult := crFail,
        versionResult := crFail, storageResult := crFail } "d" =
      ({ success := false, output := none, error := "APK文件不存在" }, []) ∧
    install_apk envBadArtifact "d" =
      ({ success := false, output := none, error := "APK文件无效或已损坏" },
       ["devices"]) :=
  ⟨(C3_precondition_order _ "d").1 rfl,
   (C3_precondition_order envBadArtifact "d").2.2.1 rfl (by decide)
     (by decide)⟩

/-- C10: in `get_usable_devices`, a mapping entry whose normalized MAC
first matches a scan line from which no IPv4 address can be extracted is
consumed by that line: no UsableDevice is emitted for the entry and no
later scan lines are considered for it — the result equals the result
for the mapping without that entry. -/
theorem C10_first_match_consumes (m1 m2 : List (String × String))
    (mac name : String) (arp : ArpScan) (l1 l2 : List String) (line : String)
    (hok : arp.ok = true)
    (hlines : pySplit '\n' (pyStrip arp.output) = l1 ++ line :: l2)
    (hnoprev : ∀ l ∈ l1,
      containsSub (dashToColon (lowerStr l)) (dashToColon (lowerStr mac)) = false)
    (hmatch : containsSub (dashToColon (lowerStr line))
      (dashToColon (lowerStr mac)) = true)
    (hnoip : extractIPv4 line = none) :
    usableOfEntry (l1 ++ line :: l2) mac name = none ∧
    (get_usable_devices (m1 ++ (mac, name) :: m2) arp).1 =
      (m1 ++ m2).filterMap
        (fun p => usableOfEntry (l1 ++ line :: l2) p.1 p.2) := by
  have hf : (l1 ++ line :: l2).find? (fun l =>
      containsSub (dashToColon (lowerStr l)) (dashToColon (lowerStr mac))) =
      some line := by
    rw [List.find?_append]
    have h1 : l1.find? (fun l =>
        containsSub (dashToColon (lowerStr l)) (dashToColon (lowerStr mac))) =
        none :=
      List.find?_eq_none.mpr (fun x hx => by simp [hnoprev x hx])
    rw [h1]
    simp [List.find?, hmatch]
  have part1 : usableOfEntry (l1 ++ line :: l2) mac name = none := by
    unfold usableOfEntry
    rw [hf]
    show (match extractIPv4 line with
          | some ip => some (⟨ip, name, mac⟩ : UsableDevice)
          | none => none) = none
    rw [hnoip]
  refine ⟨part1, ?_⟩
  have hne : (m1 ++ (mac, name) :: m2).isEmpty = false := by
    cases m1 <;> rfl
  unfold get_usable_devices
  rw [hok]
  simp only [Bool.true_eq_false, if_false, hne]
  rw [hlines]
  simp [List.filterMap_append, List.filterMap_cons, part1]

/-- C10 witness: an entry matched by a line carrying its MAC but no IPv4
address yields no UsableDevice. -/
theorem C10_first_match_consumes_witness :
    usableOfEntry ["host aa-bb-cc-dd-ee-ff dynamic"] "aa:bb:cc:dd:ee:ff"
      "Room" = none ∧
    (get_usable_devices [("aa:bb:cc:dd:ee:ff", "Room")]
      ⟨true, "host aa-bb-cc-dd-ee-ff dynamic"⟩).1 = [] := by
  have h := C10_first_match_consumes [] [] "aa:bb:cc:dd:ee:ff" "Room"
    ⟨true, "host aa-bb-cc-dd-ee-ff dynamic"⟩ [] []
    "host aa-bb-cc-dd-ee-ff dynamic" rfl (by decide) (by simp) (by decide)
    (by decide)
  exact ⟨h.1, h.2⟩

/-- Helper: the diagnosis pass is total and reports every check — for
every environment, including one where every underlying probe fails, the
report carries a line for the artifact check, the device check, the
bridge-version check and the storage check. -/
theorem diag_has_checks (env : InstallEnv) (d : String) :
    diagHasAllChecks (diagnose_install_issue env d) := by
  unfold diagHasAllChecks diagnose_install_issue
  refine ⟨?_, ?_, ?_, ?_⟩
  · cases h : env.apkExists <;> simp [h]
  · cases h : (get_connected_devices env.diagEnumResult).any
      (fun x => x.id == d) <;> simp [h]
  · cases h : env.versionResult.success <;> simp [h]
  · cases h : env.storageResult.success <;> simp [h]

/-- C7: when all five strategies fail without a fast-fail signature,
`install_apk` returns failure whose error embeds the multi-line diagnosis
block introduced by the diagnosis header line, and the diagnosis pass —
which never throws, for every environment, even when every underlying
check fails — contributes at least one line for each diagnostic check
(artifact existence/size, device connectivity/info, bridge version,
storage accessibility). -/
theorem C7_exhaustion_diagnosis (env : InstallEnv) (device_id : String)
    (hexists : env.apkExists = true)
    (hdev : (get_connected_devices env.enumResult).any
      (fun d => d.id == device_id) = true)
    (hvalid : is_valid_apk env.apkPath env.apkSize env.apkHeader = true)
    (hlen : env.strategies.length = 5)
    (hall : ∀ x ∈ env.strategies,
      x.success = false ∧ isFastFail (x.error.getD "") = false) :
    (install_apk env device_id).1.success = false ∧
    (install_apk env device_id).1.error =
      some ("所有安装方法都失败了\n诊断信息:\n" ++
        String.intercalate "\n" (diagnose_install_issue env device_id)) ∧
    (∀ (env2 : InstallEnv) (d2 : String),
      diagHasAllChecks (diagnose_install_issue env2 d2)) := by
  have hpairs : ∀ q ∈ (install_methods device_id env.apkPath).zip env.strategies,
      q.2.success = false ∧ isFastFail (q.2.error.getD "") = false :=
    fun q hq => hall q.2 (List.of_mem_zip hq).2
  have key := install_apk_ladder env device_id hexists hdev hvalid
  rw [runLadder_allFail _ hpairs] at key
  rw [key]
  exact ⟨rfl, rfl, diag_has_checks⟩

/-- C7 witness: a concrete environment where every strategy fails with an
ordinary error and every diagnostic probe fails. -/
theorem C7_exhaustion_diagnosis_witness :
    (install_apk envExhausted "d").1.success = false ∧
    (install_apk envExhausted "d").1.error =
      some ("所有安装方法都失败了\n诊断信息:\n" ++
        String.intercalate "\n" (diagnose_install_issue envExhausted "d")) ∧
    diagHasAllChecks (diagnose_install_issue envExhausted "d") :=
  have h := C7_exhaustion_diagnosis envExhausted "d" rfl (by decide)
    (by decide) rfl (by decide)
  ⟨h.1, h.2.1, h.2.2 envExhausted "d"⟩

end AdbHelper
